import Mathlib

/-!
Shallow embedding of `bot.py` (a single-group supportive-reply Telegram bot).

Conventions of the embedding:
* Python `int` participant identifiers are `Nat` (they come from `str.isdigit`
  entries, hence non-negative).
* Timestamps (`time.time()`) are `Int`: the claims compare elapsed times at
  integer instants, and only subtraction/comparison is used.
* The two process-wide dictionaries `last_sent` and `recent_messages` are
  total functions into `Option`, `none` meaning "key absent".
* The external OpenAI call is abstracted as an `Except Unit String` input:
  `.error ()` stands for any raised exception (network error, missing
  choices, `None` content, timeout), `.ok c` for a returned content string.
* `random.choice(TIPS)` is abstracted by an arbitrary `Nat` draw `r`,
  selecting index `r % TIPS.length`.
-/

namespace Bot

/-- The fixed list `TIPS` of canned supportive phrases (bot.py lines 15-24). -/
def TIPS : List String := [
  "Замечайте свои эмоции: назовите чувство вслух — это снижает его интенсивность.",
  "Говорите через \x27я-сообщения\x27: \x27я чувствую…\x27 вместо \x27ты всегда…\x27.",
  "Сохраняйте паузу перед ответом — 3 глубоких вдоха помогают вернуть ясность.",
  "Формулируйте просьбы конкретно: что, когда и как было бы полезно.",
  "Практикуйте благодарность: ежедневно фиксируйте 3 вещи, за которые благодарны.",
  "Отделяйте факт от интерпретации: \x27Он не ответил 2 часа\x27 ≠ \x27Ему всё равно\x27.",
  "Дайте себе право на отдых без чувства вины — это ресурс для семьи.",
  "Ставьте границы мягко: \x27Мне важно… поэтому я…\x27."
]

/-- `random.choice(TIPS)`: the draw is an arbitrary natural `r`. -/
def pick (r : Nat) : String := TIPS.getD (r % TIPS.length) ""

/-! String primitives of Python, modelled structurally over the character
list of a `String` so that every definition evaluates inside the kernel. -/

/-- Python `str.strip()` on the character list: whitespace removed from both
ends. -/
def stripChars (cs : List Char) : List Char :=
  ((cs.dropWhile Char.isWhitespace).reverse.dropWhile Char.isWhitespace).reverse

/-- Python `str.strip()`. -/
def pyStrip (s : String) : String := ⟨stripChars s.data⟩

/-- Python `str.split(",")` on the character list: the comma-separated
chunks, in order, empty chunks kept. -/
def splitCommaChars (cs : List Char) : List (List Char) :=
  match cs with
  | [] => [[]]
  | c :: rest =>
    match splitCommaChars rest with
    | [] => [[]]
    | cur :: parts => if c = ',' then [] :: cur :: parts else (c :: cur) :: parts

/-- Python `str.split(",")`. -/
def pySplitComma (s : String) : List String :=
  (splitCommaChars s.data).map (fun cs => ⟨cs⟩)

/-- The numeric value of a run of decimal digits (what Python `int` computes
once the literal is validated). -/
def digitsToNat (cs : List Char) : Nat :=
  cs.foldl (fun n c => n * 10 + (c.toNat - 48)) 0

/-- `BotConfig` dataclass (bot.py lines 27-33). -/
structure BotConfig where
  token : String
  openai_api_key : String
  openai_model : String
  women_user_ids : Finset Nat
  min_reply_seconds : Int

/-- The two mutable dictionaries owned by `EducationBot` (bot.py lines 66-67). -/
structure BotState where
  last_sent : Nat → Option Int
  recent_messages : Nat → Option (List String)

/-- The fresh state built in `EducationBot.__init__`: both dicts empty. -/
def initState : BotState :=
  { last_sent := fun _ => none, recent_messages := fun _ => none }

/-- A Telegram message as far as the bot reads it: its optional text.
`text = some ""` and `text = none` are both falsy for `if message.text:`. -/
structure Message where
  text : Option String

/-- A Telegram update as far as the bot reads it. -/
structure Upd where
  effective_message : Option Message
  effective_user : Option Nat

/-- `parse_user_ids` (bot.py lines 36-39): split on commas, strip each entry,
keep the entries for which `str.isdigit` holds, parse those as integers.
`str.isdigit` is modelled as "non-empty and all characters decimal digits". -/
def pyIsDigit (s : String) : Bool := s ≠ "" && s.data.all Char.isDigit

def parse_user_ids (raw : String) : Finset Nat :=
  if raw = "" then ∅
  else ((((pySplitComma raw).map pyStrip).filter pyIsDigit).map
    (fun v => digitsToNat v.data)).toFinset

/-- `EducationBot._can_reply` (bot.py lines 77-81). -/
def can_reply (cfg : BotConfig) (s : BotState) (now : Int) (user_id : Nat) : Bool :=
  match s.last_sent user_id with
  | none => true
  | some last => decide ((now - last) ≥ cfg.min_reply_seconds)

/-- `EducationBot._mark_sent` (bot.py lines 83-84): unconditional overwrite
with the current time. -/
def mark_sent (s : BotState) (now : Int) (user_id : Nat) : BotState :=
  { s with last_sent := fun u => if u = user_id then some now else s.last_sent u }

/-- The history read `self.recent_messages.get(user.id, [])` (bot.py line 102). -/
def recent (s : BotState) (user_id : Nat) : List String :=
  (s.recent_messages user_id).getD []

/-- The history update in `handle_message` (bot.py lines 95-98): append the
text, then truncate to the last 10 entries (`history[-10:]`) when the length
exceeds 10. -/
def record (s : BotState) (user_id : Nat) (text : String) : BotState :=
  let history := (s.recent_messages user_id).getD [] ++ [text]
  let history := if history.length > 10 then history.drop (history.length - 10) else history
  { s with recent_messages := fun u =>
      if u = user_id then some history else s.recent_messages u }

/-- The allow-list gate of `handle_message` (bot.py line 91): the handler
returns early iff `women_user_ids` is truthy (non-empty) and the sender is
not a member. `allowed` is the negation of that early-return condition. -/
def allowed (cfg : BotConfig) (user_id : Nat) : Bool :=
  ¬ (cfg.women_user_ids ≠ ∅ ∧ user_id ∉ cfg.women_user_ids)

/-- One enumerated history line `f"{index + 1}. {text}"` (bot.py line 104). -/
def numbered_line (index : Nat) (text : String) : String :=
  toString (index + 1) ++ ". " ++ text

/-- Prompt construction (bot.py lines 102-111). -/
def build_prompt (history : List String) : String :=
  if history = [] then
    "Поддержи участницу, будь чутким слушателем и дай мягкий совет."
  else
    let ctx := String.intercalate "\n"
      (history.enum.map (fun p => numbered_line p.1 p.2))
    "Вот последние сообщения участницы (до 10):\n" ++ ctx ++
      "\nСделай вывод по общей сути и ответь бережно."

/-- `EducationBot._generate_reply` (bot.py lines 122-143): on an exception
from the external call, or on an empty trimmed completion, fall back to a
random tip; otherwise return the trimmed completion. The `prompt` argument
only feeds the abstracted external call, hence is unused here. -/
def generate_reply (ext : Except Unit String) (r : Nat) (_prompt : String) : String :=
  match ext with
  | .ok content =>
    let result := pyStrip content
    if result ≠ "" then result else pick r
  | .error _ => pick r

/-- `EducationBot.handle_message` (bot.py lines 86-114), returning the reply
sent (if any) together with the updated state. `ext` and `r` abstract the
external completion call and the random tip draw for this event. -/
def handle_message (cfg : BotConfig) (s : BotState) (now : Int) (u : Upd)
    (ext : Except Unit String) (r : Nat) : Option String × BotState :=
  match u.effective_message, u.effective_user with
  | none, _ => (none, s)
  | some _, none => (none, s)
  | some message, some user_id =>
    if ¬ allowed cfg user_id then (none, s)
    else
      let s1 := match message.text with
        | some t => if t ≠ "" then record s user_id t else s
        | none => s
      if ¬ can_reply cfg s1 now user_id then (none, s1)
      else
        let history := recent s1 user_id
        let prompt := build_prompt history
        let reply := generate_reply ext r prompt
        let s2 := mark_sent s1 now user_id
        (some reply, s2)

/-- `EducationBot.handle_tip` (bot.py lines 116-120): no-op iff the update
has no effective message; otherwise reply with a random tip. The state is
neither read nor written. -/
def handle_tip (s : BotState) (u : Upd) (r : Nat) : Option String × BotState :=
  match u.effective_message with
  | none => (none, s)
  | some _ => (some (pick r), s)

/-- Whether Python `int(s)` succeeds on a string literal: optional
surrounding whitespace, optional sign, then a non-empty run of decimal
digits. (CPython additionally accepts underscore digit-grouping and
non-ASCII decimal digits; those corners are not modelled.) -/
def pyIntOk (s : String) : Bool :=
  match stripChars s.data with
  | [] => false
  | c :: rest =>
    if c = '-' || c = '+' then rest ≠ [] && rest.all Char.isDigit
    else (c :: rest).all Char.isDigit

/-- Python `int(s)` on a string, as `Except`: `.error` models the
`ValueError` raised on an invalid literal. -/
def pyInt (s : String) : Except String Int :=
  if pyIntOk s then
    match stripChars s.data with
    | [] => .ok 0
    | c :: rest =>
      if c = '-' then .ok (-(Int.ofNat (digitsToNat rest)))
      else if c = '+' then .ok (Int.ofNat (digitsToNat rest))
      else .ok (Int.ofNat (digitsToNat (c :: rest)))
  else .error "invalid literal for int() with base 10"

/-- `os.environ.get(key, default)` over an abstract environment. -/
def getenv (env : String → Option String) (key default : String) : String :=
  (env key).getD default

/-- `load_config` (bot.py lines 42-60): `.error` models the exceptions the
function can raise (the two explicit `RuntimeError`s and the `ValueError`
from `int(...)` on line 53). -/
def load_config (env : String → Option String) : Except String BotConfig :=
  let token := pyStrip (getenv env "BOT_TOKEN" "")
  if token = "" then .error "BOT_TOKEN is required"
  else
    let k1 := pyStrip (getenv env "OPENAI_API_KEY" "")
    let openai_api_key := if k1 = "" then pyStrip (getenv env "CHAT_GPT_TOKEN" "") else k1
    if openai_api_key = "" then .error "OPENAI_API_KEY or CHAT_GPT_TOKEN is required"
    else
      let openai_model := pyStrip (getenv env "OPENAI_MODEL" "gpt-4o-mini")
      let women_user_ids := parse_user_ids (getenv env "WOMEN_USER_IDS" "")
      match pyInt (getenv env "MIN_REPLY_SECONDS" "3") with
      | .error e => .error e
      | .ok m =>
        .ok { token := token, openai_api_key := openai_api_key,
              openai_model := openai_model, women_user_ids := women_user_ids,
              min_reply_seconds := m }

end Bot

namespace Bot

/-- Configuration of the rate-limit scenario: participant 42 allow-listed,
five-second minimum interval. -/
def scenarioCfg : BotConfig :=
  { token := "t", openai_api_key := "k", openai_model := "m",
    women_user_ids := {42}, min_reply_seconds := 5 }

/-- A free-text message event from participant 42. -/
def scenarioUpd : Upd :=
  { effective_message := some { text := some "hi" }, effective_user := some 42 }

/-- A state whose history for participant 1 already holds ten messages. -/
def tenState : BotState :=
  { last_sent := fun _ => none,
    recent_messages := fun _ =>
      some ["m1", "m2", "m3", "m4", "m5", "m6", "m7", "m8", "m9", "m10"] }

/-- Every tip in the catalog is a non-empty string. -/
lemma tips_nonempty : ∀ t ∈ TIPS, t ≠ "" := by decide

/-- A random draw from the tip list is a member of the tip list. -/
lemma pick_mem (r : Nat) : pick r ∈ TIPS := by
  have h : r % TIPS.length < TIPS.length := Nat.mod_lt _ (by decide)
  simpa [pick, List.getD_eq_getElem?_getD, List.getElem?_eq_getElem h] using
    List.getElem_mem h

lemma pick_ne_empty (r : Nat) : pick r ≠ "" := tips_nonempty _ (pick_mem r)

/-- Claim C1: the reply generator never fails. If the external completion
call raises, or its trimmed text is empty, the result is a (random) member
of the fixed tip list; on success the result is the trimmed completion
text; in every case the result is a non-empty string. -/
theorem generate_reply_never_fails (ext : Except Unit String) (r : Nat) (prompt : String) :
    (∀ u, ext = Except.error u →
      generate_reply ext r prompt = pick r ∧ pick r ∈ TIPS) ∧
    (∀ c, ext = Except.ok c → pyStrip c = "" →
      generate_reply ext r prompt = pick r ∧ pick r ∈ TIPS) ∧
    (∀ c, ext = Except.ok c → pyStrip c ≠ "" →
      generate_reply ext r prompt = pyStrip c) ∧
    generate_reply ext r prompt ≠ "" := by
  refine ⟨?_, ?_, ?_, ?_⟩
  · rintro u rfl; exact ⟨rfl, pick_mem r⟩
  · rintro c rfl h; simp [generate_reply, h, pick_mem r]
  · rintro c rfl h; simp [generate_reply, h]
  · cases ext with
    | error u => exact pick_ne_empty r
    | ok c =>
      by_cases h : pyStrip c = ""
      · simpa [generate_reply, h] using pick_ne_empty r
      · simpa [generate_reply, h] using h

/-- Instantiation of the reply-generator theorem at a failing call, an
empty completion and a non-empty completion. -/
theorem generate_reply_never_fails_witness :
    (generate_reply (Except.error ()) 0 "p" = pick 0 ∧ pick 0 ∈ TIPS) ∧
    (generate_reply (Except.ok "  ") 1 "p" = pick 1 ∧ pick 1 ∈ TIPS) ∧
    generate_reply (Except.ok " hi ") 2 "p" = pyStrip " hi " :=
  ⟨(generate_reply_never_fails (Except.error ()) 0 "p").1 () rfl,
   (generate_reply_never_fails (Except.ok "  ") 1 "p").2.1 "  " rfl (by decide),
   (generate_reply_never_fails (Except.ok " hi ") 2 "p").2.2.1 " hi " rfl (by decide)⟩

/-- Claim C2: `_can_reply` is true iff the participant has no recorded
last-sent timestamp or at least `min_reply_seconds` have elapsed since it;
`_mark_sent` unconditionally overwrites that participant's entry with the
current time, touching nothing else. -/
theorem rate_limiter_spec (cfg : BotConfig) (s : BotState) (now : Int) (uid : Nat) :
    (can_reply cfg s now uid = true ↔
      s.last_sent uid = none ∨
        ∃ last, s.last_sent uid = some last ∧ now - last ≥ cfg.min_reply_seconds) ∧
    (mark_sent s now uid).last_sent uid = some now ∧
    (∀ v, v ≠ uid → (mark_sent s now uid).last_sent v = s.last_sent v) ∧
    (mark_sent s now uid).recent_messages = s.recent_messages := by
  refine ⟨?_, ?_, ?_, rfl⟩
  · cases h : s.last_sent uid with
    | none => simp [can_reply, h]
    | some last => simp [can_reply, h]
  · simp [mark_sent]
  · intro v hv; simp [mark_sent, hv]

/-- Instantiation of the rate-limiter theorem: overwriting an existing
entry at time 7, and the untouched entry of another participant. -/
theorem rate_limiter_spec_witness :
    (mark_sent (mark_sent initState 0 1) 7 1).last_sent 1 = some 7 ∧
    (mark_sent (mark_sent initState 0 1) 7 1).last_sent 2 =
      (mark_sent initState 0 1).last_sent 2 :=
  ⟨(rate_limiter_spec scenarioCfg (mark_sent initState 0 1) 7 1).2.1,
   (rate_limiter_spec scenarioCfg (mark_sent initState 0 1) 7 1).2.2.1 2 (by decide)⟩

/-- Claim C3: `allowed` holds iff the allow-list is empty or the
participant is a member, and a participant outside a non-empty allow-list
gets no reply and no state change from any free-text message event. -/
theorem allow_list_gate (cfg : BotConfig) (s : BotState) (now : Int) (u : Upd)
    (ext : Except Unit String) (r : Nat) (uid : Nat) :
    (allowed cfg uid = true ↔ cfg.women_user_ids = ∅ ∨ uid ∈ cfg.women_user_ids) ∧
    (u.effective_user = some uid → cfg.women_user_ids ≠ ∅ → uid ∉ cfg.women_user_ids →
      handle_message cfg s now u ext r = (none, s)) := by
  constructor
  · simp [allowed]
  · intro hu hne hmem
    cases hm : u.effective_message with
    | none => simp [handle_message, hm]
    | some msg => simp [handle_message, hm, hu, allowed, hne, hmem]

/-- Instantiation of the gate theorem: participant 7 is outside the
allow-list `{42}` and the message event is a silent no-op. -/
theorem allow_list_gate_witness :
    handle_message scenarioCfg initState 0
      { effective_message := some { text := some "hello" }, effective_user := some 7 }
      (Except.error ()) 0 = (none, initState) :=
  (allow_list_gate scenarioCfg initState 0
    { effective_message := some { text := some "hello" }, effective_user := some 7 }
    (Except.error ()) 0 7).2 rfl (by decide) (by decide)

/-- The value `recent` takes after `record`: the appended list, truncated
to its last ten entries when it exceeds ten. -/
lemma recent_record (s : BotState) (uid : Nat) (t : String) :
    recent (record s uid t) uid =
      if (recent s uid ++ [t]).length > 10
      then (recent s uid ++ [t]).drop ((recent s uid ++ [t]).length - 10)
      else recent s uid ++ [t] := by
  simp [recent, record]

/-- Claim C4: the per-participant history never exceeds ten entries,
recording onto a full buffer drops exactly the oldest entry and appends
the new one at the end, and a participant with no recorded messages has
empty history. -/
theorem history_buffer_spec (s : BotState) (uid : Nat) (t : String) :
    (s.recent_messages uid = none → recent s uid = []) ∧
    ((recent s uid).length ≤ 10 → (recent (record s uid t) uid).length ≤ 10) ∧
    ((recent s uid).length < 10 →
      recent (record s uid t) uid = recent s uid ++ [t]) ∧
    ((recent s uid).length = 10 →
      recent (record s uid t) uid = (recent s uid).drop 1 ++ [t]) := by
  refine ⟨fun h => by simp [recent, h], ?_⟩
  rw [recent_record]
  generalize recent s uid = old
  refine ⟨?_, ?_, ?_⟩
  · intro h
    by_cases hgt : (old ++ [t]).length > 10
    · simp only [if_pos hgt, List.length_drop]
      omega
    · simp only [if_neg hgt]
      simp only [List.length_append, List.length_cons, List.length_nil] at hgt ⊢
      omega
  · intro h
    rw [if_neg (by simp only [List.length_append, List.length_cons, List.length_nil]; omega)]
  · intro h
    have hgt : (old ++ [t]).length > 10 := by
      simp only [List.length_append, List.length_cons, List.length_nil]; omega
    rw [if_pos hgt]
    have h1 : (old ++ [t]).length - 10 = 1 := by
      simp only [List.length_append, List.length_cons, List.length_nil]; omega
    rw [h1, List.drop_append_of_le_length (by omega)]

/-- Instantiation of the history theorem: an empty buffer, an append
below the cap, and the eleventh message onto a full buffer. -/
theorem history_buffer_spec_witness :
    recent initState 1 = [] ∧
    recent (record initState 1 "a") 1 = recent initState 1 ++ ["a"] ∧
    recent (record tenState 1 "x") 1 = (recent tenState 1).drop 1 ++ ["x"] :=
  ⟨(history_buffer_spec initState 1 "a").1 rfl,
   (history_buffer_spec initState 1 "a").2.2.1 (by decide),
   (history_buffer_spec tenState 1 "x").2.2.2 (by decide)⟩

/-- Claim C5: with participant 42 allow-listed and a five-second window,
a message at time 0 is answered and records last-sent 0, a message at
time 3 gets no reply, and a message at time 6 is answered again —
whatever the external call and the random draws do. -/
theorem rate_limit_scenario (e1 e2 e3 : Except Unit String) (r1 r2 r3 : Nat) :
    (handle_message scenarioCfg initState 0 scenarioUpd e1 r1).1.isSome = true ∧
    (handle_message scenarioCfg initState 0 scenarioUpd e1 r1).2.last_sent 42 = some 0 ∧
    (handle_message scenarioCfg
      (handle_message scenarioCfg initState 0 scenarioUpd e1 r1).2 3 scenarioUpd e2 r2).1
      = none ∧
    (handle_message scenarioCfg
      (handle_message scenarioCfg
        (handle_message scenarioCfg initState 0 scenarioUpd e1 r1).2
        3 scenarioUpd e2 r2).2 6 scenarioUpd e3 r3).1.isSome = true := by
  refine ⟨rfl, rfl, rfl, rfl⟩

/-- Claim C6: the tip command bypasses the allow-list and the rate
limiter: any event carrying a message gets a member of the tip list
immediately, the state is returned untouched, and the reply does not
depend on the state at all. -/
theorem handle_tip_bypasses_gates (s s2 : BotState) (u : Upd) (r : Nat) (msg : Message)
    (h : u.effective_message = some msg) :
    handle_tip s u r = (some (pick r), s) ∧ pick r ∈ TIPS ∧
    (handle_tip s u r).1 = (handle_tip s2 u r).1 := by
  refine ⟨?_, pick_mem r, ?_⟩ <;> simp [handle_tip, h]

/-- Instantiation of the tip-command theorem for a rate-limited sender
outside every allow-list. -/
theorem handle_tip_bypasses_gates_witness :
    handle_tip (mark_sent initState 0 7)
      { effective_message := some { text := some "/tip" }, effective_user := some 7 } 3 =
      (some (pick 3), mark_sent initState 0 7) ∧ pick 3 ∈ TIPS :=
  ⟨(handle_tip_bypasses_gates (mark_sent initState 0 7) initState
      { effective_message := some { text := some "/tip" }, effective_user := some 7 }
      3 { text := some "/tip" } rfl).1,
   (handle_tip_bypasses_gates (mark_sent initState 0 7) initState
      { effective_message := some { text := some "/tip" }, effective_user := some 7 }
      3 { text := some "/tip" } rfl).2.1⟩

/-- Counterexample to claim C7 as stated: a tip-command event whose
sender is absent but whose message is present still gets a reply, and
the handler is not a no-op on it. -/
theorem handle_tip_sender_absent_cex :
    ((handle_tip initState
        { effective_message := some { text := none }, effective_user := none } 0).1 ≠ none) ∧
    (handle_tip initState
        { effective_message := some { text := none }, effective_user := none } 0).2 = initState := by
  exact ⟨by decide, rfl⟩

/-- Claim C7 as amended: the tip handler is a no-op exactly when the
event carries no message; the sender is never examined, so an event with
a message and no sender is still answered with a tip. -/
theorem handle_tip_noop_iff_no_message (s : BotState) (u : Upd) (r : Nat) :
    (u.effective_message = none → handle_tip s u r = (none, s)) ∧
    (∀ msg, u.effective_message = some msg → (handle_tip s u r).1 = some (pick r)) := by
  constructor
  · intro h; simp [handle_tip, h]
  · intro msg h; simp [handle_tip, h]

/-- Instantiation of the amended tip-handler theorem on a message-less
event and on a sender-less event. -/
theorem handle_tip_noop_iff_no_message_witness :
    handle_tip initState { effective_message := none, effective_user := some 7 } 0 =
      (none, initState) ∧
    (handle_tip initState
      { effective_message := some { text := none }, effective_user := none } 1).1 =
      some (pick 1) :=
  ⟨(handle_tip_noop_iff_no_message initState
      { effective_message := none, effective_user := some 7 } 0).1 rfl,
   (handle_tip_noop_iff_no_message initState
      { effective_message := some { text := none }, effective_user := none } 1).2
      { text := none } rfl⟩

/-- Claim C8: `parse_user_ids` yields `{1,2,3}` on `"1, 2, abc, 3"` and
the empty set on `""`; in general an identifier is in the result iff some
comma-separated entry strips to an all-digit string denoting it, so
non-numeric entries are silently dropped. -/
theorem parse_user_ids_spec :
    parse_user_ids "1, 2, abc, 3" = {1, 2, 3} ∧
    parse_user_ids "" = ∅ ∧
    ∀ raw n, n ∈ parse_user_ids raw ↔
      (∃ v ∈ (pySplitComma raw).map pyStrip, pyIsDigit v = true ∧ digitsToNat v.data = n) := by
  refine ⟨by decide, by decide, ?_⟩
  intro raw n
  by_cases hraw : raw = ""
  · subst hraw
    have h1 : (pySplitComma "").map pyStrip = [""] := by decide
    have h2 : pyIsDigit "" = false := by decide
    rw [h1]
    simp [parse_user_ids, h2]
  · simp only [parse_user_ids, if_neg hraw, List.mem_toFinset, List.mem_map,
      List.mem_filter]
    constructor
    · rintro ⟨v, ⟨hv, hd⟩, rfl⟩; exact ⟨v, hv, hd, rfl⟩
    · rintro ⟨v, hv, hd, rfl⟩; exact ⟨v, ⟨hv, hd⟩, rfl⟩

lemma intercalate_go_cons (s acc b : String) (bs : List String) :
    String.intercalate.go acc s (b :: bs) = acc ++ s ++ String.intercalate.go b s bs := by
  induction bs generalizing acc b with
  | nil => rfl
  | cons c cs ih =>
    have h1 : String.intercalate.go acc s (b :: c :: cs) =
        String.intercalate.go (acc ++ s ++ b) s (c :: cs) := rfl
    rw [h1, ih, ih]
    simp only [String.append_assoc]

lemma intercalate_cons (s a : String) (l : List String) (h : l ≠ []) :
    String.intercalate s (a :: l) = a ++ s ++ String.intercalate s l := by
  cases l with
  | nil => exact absurd rfl h
  | cons b bs => exact intercalate_go_cons s a b bs

lemma intercalate_append_singleton (s b : String) (l : List String) (h : l ≠ []) :
    String.intercalate s (l ++ [b]) = String.intercalate s l ++ s ++ b := by
  induction l with
  | nil => exact absurd rfl h
  | cons a t ih =>
    cases t with
    | nil => rfl
    | cons c cs =>
      rw [List.cons_append, intercalate_cons s a ((c :: cs) ++ [b]) (by simp),
        intercalate_cons s a (c :: cs) (by simp), ih (by simp)]
      simp only [String.append_assoc]

lemma enumFrom_map_numbered (l : List String) : ∀ k : Nat,
    (l.enumFrom k).map (fun p => numbered_line p.1 p.2) =
      (List.range l.length).map (fun i => numbered_line (k + i) (l.getD i "")) := by
  induction l with
  | nil => intro k; rfl
  | cons a t ih =>
    intro k
    simp only [List.enumFrom, List.map_cons, List.length_cons,
      List.range_succ_eq_map, List.map_map]
    refine congrArg₂ _ (by simp [Nat.add_zero]) ?_
    rw [ih (k + 1)]
    refine List.map_congr_left (fun i _ => ?_)
    simp only [Function.comp_apply, List.getD_cons_succ, Nat.succ_eq_add_one]
    congr 1
    omega

/-- Claim C9: on a non-empty history the prompt is exactly the header
line, the stored messages one per line with 1-based indices, and the
synthesis request, joined by newlines; on an empty history it is the
fixed generic supportive prompt. -/
theorem build_prompt_spec (history : List String) :
    build_prompt [] = "Поддержи участницу, будь чутким слушателем и дай мягкий совет." ∧
    (history ≠ [] → build_prompt history =
      String.intercalate "\n"
        ("Вот последние сообщения участницы (до 10):" ::
          ((List.range history.length).map
            (fun i => toString (i + 1) ++ ". " ++ history.getD i "")) ++
          ["Сделай вывод по общей сути и ответь бережно."])) := by
  refine ⟨rfl, fun h => ?_⟩
  have hlines : (List.range history.length).map
      (fun i => toString (i + 1) ++ ". " ++ history.getD i "") =
      (List.range history.length).map (fun i => numbered_line (0 + i) (history.getD i "")) := by
    refine List.map_congr_left (fun i _ => ?_)
    simp [numbered_line]
  have hlen : history.length ≠ 0 := fun h0 => h (List.length_eq_zero.mp h0)
  have hne : (List.range history.length).map
      (fun i => numbered_line (0 + i) (history.getD i "")) ≠ [] := by
    simp [List.range_eq_nil, hlen]
  have hx := intercalate_cons "\n" "Вот последние сообщения участницы (до 10):"
    ((List.range history.length).map (fun i => numbered_line (0 + i) (history.getD i "")) ++
      ["Сделай вывод по общей сути и ответь бережно."]) (by simp)
  have hy := intercalate_append_singleton "\n" "Сделай вывод по общей сути и ответь бережно."
    ((List.range history.length).map (fun i => numbered_line (0 + i) (history.getD i ""))) hne
  rw [hlines, List.cons_append, hx, hy, ← enumFrom_map_numbered history 0]
  rw [build_prompt, if_neg h]
  show "Вот последние сообщения участницы (до 10):\n" ++ _ ++
      "\nСделай вывод по общей сути и ответь бережно." = _
  rw [show ("Вот последние сообщения участницы (до 10):\n" : String) =
      "Вот последние сообщения участницы (до 10):" ++ "\n" from rfl,
    show ("\nСделай вывод по общей сути и ответь бережно." : String) =
      "\n" ++ "Сделай вывод по общей сути и ответь бережно." from rfl]
  simp only [String.append_assoc]
  rfl

/-- Instantiation of the prompt theorem on the history `["a", "b"]`. -/
theorem build_prompt_spec_witness :
    build_prompt ["a", "b"] =
      String.intercalate "\n"
        ("Вот последние сообщения участницы (до 10):" ::
          ((List.range (["a", "b"] : List String).length).map
            (fun i => toString (i + 1) ++ ". " ++ (["a", "b"] : List String).getD i "")) ++
          ["Сделай вывод по общей сути и ответь бережно."]) :=
  (build_prompt_spec ["a", "b"]).2 (by decide)

/-- Claim C10: whenever the `MIN_REPLY_SECONDS` environment value is
present but not a valid integer literal, `load_config` raises instead of
dropping the value or substituting the default. -/
theorem load_config_invalid_interval (env : String → Option String) (v : String)
    (h1 : env "MIN_REPLY_SECONDS" = some v) (h2 : pyIntOk v = false) :
    ∃ e, load_config env = Except.error e := by
  have hv : getenv env "MIN_REPLY_SECONDS" "3" = v := by rw [getenv, h1]; rfl
  have hp : pyInt (getenv env "MIN_REPLY_SECONDS" "3") =
      Except.error "invalid literal for int() with base 10" := by
    rw [hv]; simp [pyInt, h2]
  simp only [load_config]
  split_ifs <;>
    first
    | exact ⟨_, rfl⟩
    | (rw [hp]; exact ⟨_, rfl⟩)

/-- Instantiation of the configuration theorem on an environment with
valid credentials and `MIN_REPLY_SECONDS=abc`. -/
theorem load_config_invalid_interval_witness :
    ∃ e, load_config (fun k =>
      if k = "BOT_TOKEN" then some "t"
      else if k = "OPENAI_API_KEY" then some "key"
      else if k = "MIN_REPLY_SECONDS" then some "abc" else none) = Except.error e :=
  load_config_invalid_interval
    (fun k =>
      if k = "BOT_TOKEN" then some "t"
      else if k = "OPENAI_API_KEY" then some "key"
      else if k = "MIN_REPLY_SECONDS" then some "abc" else none)
    "abc" (by decide) (by decide)

end Bot
